import Mathlib

/-!
Shallow embedding of the Energy Allocation Engine of the
Dynamic-Tariff-Benchmarking-Framework repository:

* `ProsumerCommunityOptimizer` (src/optimization/prosumer_optimizer.py):
  the optimization model builder `setup_problem` is embedded as a function
  producing an explicit problem description (`CProblem`): a linear-expression
  AST (`CExpr`) over the decision variables (`Var`), a list of equality /
  inequality constraints (`Constr`) in the order the source appends them
  (vectorized cvxpy constraints are expanded elementwise), and the objective
  expression.  The solver adapter `solve` is embedded over an abstract solver
  response, and `calculate_individual_costs` over a results dictionary whose
  NaN sentinel entries are modelled as `none`.

* `P2PTradingMechanism` (src/models/p2p_trading.py): the greedy bilateral
  matcher `optimize_trading_flows` is embedded with explicit state threading
  (trading matrix, remaining surplus, remaining deficit).  `np.argsort` of a
  negated key is modelled as a stable descending sort with ties kept in
  ascending index order (`sortDesc`); numpy leaves the tie order of its
  default sort kind unspecified, so this is a modelling choice, matching
  numpy's small-array insertion-sort path.

Real arithmetic is modelled by `ℚ`.
-/

namespace DTBF

/-! ## Optimization model builder (`prosumer_optimizer.py`) -/

/-- Decision variables of `ProsumerCommunityOptimizer._setup_variables`:
grid imports `G_down`, grid exports `G_up`, community exports `E_comm`,
battery charge `B_up`, battery discharge `B_down`, state of charge `SOC`,
served flexible load `L`, each indexed by building `i` and timestep `t`. -/
inductive Var where
  | Gdown (i t : ℕ)
  | Gup (i t : ℕ)
  | Ecomm (i t : ℕ)
  | Bup (i t : ℕ)
  | Bdown (i t : ℕ)
  | SOC (i t : ℕ)
  | L (i t : ℕ)
deriving DecidableEq

/-- Affine expressions over the decision variables, as assembled by the
source's cvxpy expression arithmetic. -/
inductive CExpr where
  | const (c : ℚ)
  | var (v : Var)
  | add (a b : CExpr)
  | sub (a b : CExpr)
  | smul (c : ℚ) (a : CExpr)
  | div (a : CExpr) (c : ℚ)
deriving DecidableEq

/-- A single constraint: equality, `≤`, or `≥` between two expressions. -/
inductive Constr where
  | eqC (lhs rhs : CExpr)
  | leC (lhs rhs : CExpr)
  | geC (lhs rhs : CExpr)
deriving DecidableEq

/-- Value of an expression under an assignment of the decision variables. -/
def CExpr.eval (σ : Var → ℚ) : CExpr → ℚ
  | .const c => c
  | .var v => σ v
  | .add a b => a.eval σ + b.eval σ
  | .sub a b => a.eval σ - b.eval σ
  | .smul c a => c * a.eval σ
  | .div a c => a.eval σ / c

/-- Satisfaction of a single constraint by an assignment. -/
def Constr.holds (σ : Var → ℚ) : Constr → Prop
  | .eqC a b => a.eval σ = b.eval σ
  | .leC a b => a.eval σ ≤ b.eval σ
  | .geC a b => a.eval σ ≥ b.eval σ

/-- `cp.sum` over `k` terms, folded left starting from `0` as cvxpy does. -/
def sumExpr (k : ℕ) (f : ℕ → CExpr) : CExpr :=
  (List.range k).foldl (fun e t => e.add (f t)) (CExpr.const 0)

/-- A built problem: objective expression plus constraint list. -/
structure CProblem where
  objective : CExpr
  constraints : List Constr

/-- `battery_specs` dictionary: per-building battery parameters. -/
structure BatterySpecs where
  max_energy : ℕ → ℚ
  max_power : ℕ → ℚ
  initial_soc : ℕ → ℚ
  final_soc_min : ℕ → ℚ

/-- `load_flexibility` dictionary: per-building, per-timestep load bounds. -/
structure LoadFlexibility where
  min_load : ℕ → ℕ → ℚ
  max_load : ℕ → ℕ → ℚ

/-- Scalar configuration of `ProsumerCommunityOptimizer.__init__`. -/
structure ProsumerCommunityOptimizer where
  num_buildings : ℕ
  time_horizon : ℕ
  eta_ch : ℚ
  eta_dis : ℚ

/-- The per-(i,t) energy-balance equality appended by `setup_problem`:
`L[i,t] == pv_generation[i,t] + G_down[i,t] + B_down[i,t] - G_up[i,t] - B_up[i,t]`,
with the right-hand side associated exactly as Python evaluates it. -/
def energyBalanceConstraint (pv_generation : ℕ → ℕ → ℚ) (i t : ℕ) : Constr :=
  .eqC (.var (.L i t))
    (((((CExpr.const (pv_generation i t)).add (.var (.Gdown i t))).add
        (.var (.Bdown i t))).sub (.var (.Gup i t))).sub (.var (.Bup i t)))

/-- The battery state-evolution equality appended by `setup_problem`:
`SOC[i,t+1] == SOC[i,t] + eta_ch * B_up[i,t] - B_down[i,t] / eta_dis`. -/
def socEvolutionConstraint (eta_ch eta_dis : ℚ) (i t : ℕ) : Constr :=
  .eqC (.var (.SOC i (t + 1)))
    (((CExpr.var (.SOC i t)).add (.smul eta_ch (.var (.Bup i t)))).sub
      ((CExpr.var (.Bdown i t)).div eta_dis))

/-- `ProsumerCommunityOptimizer.setup_problem`.  Builds the constraint list in
source order: (1) energy balance for every building and timestep, (2) battery
capacity/power bounds (vectorized rows expanded elementwise), state evolution
for `t` in `0..T-2`, initial and final SOC, (3) load-flexibility bounds and
the ±10% aggregate bounds, (4) community-trading bounds, then the
total-community-cost objective.  The `demand` argument is accepted and unused,
as in the source. -/
def ProsumerCommunityOptimizer.setup_problem (o : ProsumerCommunityOptimizer)
    (demand pv_generation : ℕ → ℕ → ℚ)
    (import_prices export_prices community_prices : ℕ → ℚ)
    (battery_specs : BatterySpecs) (load_flexibility : LoadFlexibility) :
    CProblem :=
  let N := o.num_buildings
  let T := o.time_horizon
  let balance := (List.range N).flatMap (fun i =>
    (List.range T).map (fun t => energyBalanceConstraint pv_generation i t))
  let battery := (List.range N).flatMap (fun i =>
    ((List.range T).map fun t =>
      Constr.leC (.var (.SOC i t)) (.const (battery_specs.max_energy i)))
    ++ ((List.range T).map fun t =>
      Constr.leC (.var (.Bup i t)) (.const (battery_specs.max_power i)))
    ++ ((List.range T).map fun t =>
      Constr.leC (.var (.Bdown i t)) (.const (battery_specs.max_power i)))
    ++ ((List.range (T - 1)).map fun t =>
      socEvolutionConstraint o.eta_ch o.eta_dis i t)
    ++ [Constr.eqC (.var (.SOC i 0)) (.const (battery_specs.initial_soc i)),
        Constr.geC (.var (.SOC i (T - 1))) (.const (battery_specs.final_soc_min i))])
  let flex := (List.range N).flatMap (fun i =>
    ((List.range T).map fun t =>
      Constr.geC (.var (.L i t)) (.const (load_flexibility.min_load i t)))
    ++ ((List.range T).map fun t =>
      Constr.leC (.var (.L i t)) (.const (load_flexibility.max_load i t)))
    ++ [Constr.geC (sumExpr T (fun t => .var (.L i t)))
          (.smul (9/10) (.const (∑ t ∈ Finset.range T, load_flexibility.min_load i t))),
        Constr.leC (sumExpr T (fun t => .var (.L i t)))
          (.smul (11/10) (.const (∑ t ∈ Finset.range T, load_flexibility.max_load i t)))])
  let trading := (List.range T).flatMap (fun t =>
    ((List.range N).map fun i => Constr.leC (.var (.Ecomm i t)) (.var (.Gup i t)))
    ++ [Constr.leC (sumExpr N (fun i => .var (.Ecomm i t)))
          (sumExpr N (fun i => .var (.Gdown i t)))])
  let objective := (List.range T).foldl (fun e t =>
    e.add (((CExpr.smul (import_prices t) (sumExpr N (fun i => .var (.Gdown i t)))).sub
            (.smul (community_prices t) (sumExpr N (fun i => .var (.Ecomm i t))))).sub
            (.smul (export_prices t)
              (sumExpr N (fun i => (CExpr.var (.Gup i t)).sub (.var (.Ecomm i t)))))))
    (CExpr.const 0)
  { objective := objective, constraints := balance ++ battery ++ flex ++ trading }

/-! ## Solver adapter (`ProsumerCommunityOptimizer.solve`) -/

/-- The decision-flow value arrays extracted from a solved problem. -/
structure DecisionFlows where
  grid_imports : ℕ → ℕ → ℚ
  grid_exports : ℕ → ℕ → ℚ
  community_trades : ℕ → ℕ → ℚ
  battery_charge : ℕ → ℕ → ℚ
  battery_discharge : ℕ → ℕ → ℚ
  battery_soc : ℕ → ℕ → ℚ
  flexible_load : ℕ → ℕ → ℚ

/-- Behaviour of the external `problem.solve` call: it either finishes and
leaves a status string, an objective value and variable values on the problem,
or it throws an exception with a message. -/
inductive SolverResponse where
  | finishes (status : String) (objective_value : ℚ) (flows : DecisionFlows)
  | throws (message : String)

/-- The dictionary returned by `ProsumerCommunityOptimizer.solve`: either the
full result set, or a status-only dictionary (`objective_value: None`), or the
exception-path dictionary whose status is the string `"error"`. -/
inductive SolveResult where
  | full (status : String) (objective_value : ℚ) (flows : DecisionFlows)
  | statusOnly (status : String)
  | solverError (status : String) (message : String)

/-- `ProsumerCommunityOptimizer.solve`: wraps the solver call in try/except;
on a normal finish it returns the full results unless the status is
`"infeasible"` or `"unbounded"` (then status only); on an exception it returns
the `"error"`-status dictionary. -/
def solve (resp : SolverResponse) : SolveResult :=
  match resp with
  | .finishes st obj fl =>
      if st ∈ (["infeasible", "unbounded"] : List String) then .statusOnly st
      else .full st obj fl
  | .throws msg => .solverError "error" msg

/-! ## Individual cost attribution (`calculate_individual_costs`) -/

/-- The fields of the results dictionary read by `calculate_individual_costs`. -/
structure OptResults where
  status : String
  grid_imports : ℕ → ℕ → ℚ
  grid_exports : ℕ → ℕ → ℚ
  community_trades : ℕ → ℕ → ℚ

/-- `ProsumerCommunityOptimizer.calculate_individual_costs`: when the status is
`"optimal"`, per-building cost = import cost − community revenue − grid-export
revenue, each a sum over timesteps; otherwise `np.full(N, nan)`, with the NaN
sentinel modelled as `none`. -/
def ProsumerCommunityOptimizer.calculate_individual_costs
    (o : ProsumerCommunityOptimizer) (results : OptResults)
    (import_prices export_prices community_prices : ℕ → ℚ) : List (Option ℚ) :=
  if results.status = "optimal" then
    (List.range o.num_buildings).map (fun i =>
      some ((∑ t ∈ Finset.range o.time_horizon, import_prices t * results.grid_imports i t)
        - (∑ t ∈ Finset.range o.time_horizon, community_prices t * results.community_trades i t)
        - (∑ t ∈ Finset.range o.time_horizon,
            export_prices t * (results.grid_exports i t - results.community_trades i t))))
  else List.replicate o.num_buildings none

/-! ## Greedy bilateral trading matcher (`p2p_trading.py`) -/

/-- State of `P2PTradingMechanism`: the adjacency matrix `trading_allowed` is a
real-valued matrix, conceptually `num_buildings × num_buildings`. -/
structure P2PTradingMechanism where
  num_buildings : ℕ
  trading_efficiency : ℚ
  max_trading_distance : ℚ
  trading_allowed : ℕ → ℕ → ℚ

/-- `P2PTradingMechanism.__init__`: all-ones adjacency with the diagonal
zeroed by `np.fill_diagonal`. -/
def P2PTradingMechanism.init (num_buildings : ℕ)
    (trading_efficiency max_trading_distance : ℚ) : P2PTradingMechanism :=
  { num_buildings := num_buildings
    trading_efficiency := trading_efficiency
    max_trading_distance := max_trading_distance
    trading_allowed := fun i j => if i = j then 0 else 1 }

/-- A numpy array with an explicit 2-D shape, as passed to
`set_trading_network`. -/
structure NDMatrix where
  rows : ℕ
  cols : ℕ
  entry : ℕ → ℕ → ℚ

/-- `P2PTradingMechanism.set_trading_network`: raises `ValueError` when the
shape is not `(N, N)`; otherwise stores a copy of the input with the diagonal
re-zeroed. -/
def P2PTradingMechanism.set_trading_network (m : P2PTradingMechanism)
    (adjacency_matrix : NDMatrix) : Except String P2PTradingMechanism :=
  if ¬(adjacency_matrix.rows = m.num_buildings ∧
        adjacency_matrix.cols = m.num_buildings) then
    .error "Adjacency matrix must match number of buildings"
  else
    .ok { m with trading_allowed := fun i j =>
            if i = j then 0 else adjacency_matrix.entry i j }

/-- Pointwise update of a vector, modelling `v[i] = x`. -/
def upd (f : ℕ → ℚ) (i : ℕ) (v : ℚ) : ℕ → ℚ := fun x => if x = i then v else f x

/-- Pointwise update of a matrix, modelling `m[i, j] = x`. -/
def upd2 (f : ℕ → ℕ → ℚ) (i j : ℕ) (v : ℚ) : ℕ → ℕ → ℚ :=
  fun a b => if a = i ∧ b = j then v else f a b

/-- Insert an index into a list already sorted by strictly descending key,
placing it after all strictly larger keys and before equal ones. -/
def insertDesc (key : ℕ → ℚ) (j : ℕ) : List ℕ → List ℕ
  | [] => [j]
  | k :: rest => if key j < key k then k :: insertDesc key j rest else j :: k :: rest

/-- Stable descending sort by key.  Models `np.argsort(-key)` applied to a
list of indices in ascending order: descending in the key, ties kept in
ascending index order. -/
def sortDesc (key : ℕ → ℚ) : List ℕ → List ℕ
  | [] => []
  | j :: rest => insertDesc key j (sortDesc key rest)

/-- Mutable state threaded through the greedy allocation loops of
`optimize_trading_flows`: trading matrix, remaining surplus, remaining
deficit. -/
structure TradeState where
  tm : ℕ → ℕ → ℚ
  sr : ℕ → ℚ
  dr : ℕ → ℚ

/-- Inner loop of `optimize_trading_flows` over the ordered deficit holders
`j` for a fixed surplus holder `i`: break when `i`'s remaining surplus is
`≤ 0`; otherwise trade `min(sr[i], dr[j]) * efficiency` when it exceeds the
`0.001` threshold, decrementing the surplus by `amount / efficiency` and the
deficit by `amount`. -/
def tradeInner (eff : ℚ) (i : ℕ) : List ℕ → TradeState → TradeState
  | [], s => s
  | j :: rest, s =>
    if s.sr i ≤ 0 then s
    else
      let amt := min (s.sr i) (s.dr j) * eff
      if 1/1000 < amt then
        tradeInner eff i rest
          ⟨upd2 s.tm i j amt, upd s.sr i (s.sr i - amt / eff), upd s.dr j (s.dr j - amt)⟩
      else tradeInner eff i rest s

/-- Outer loop of `optimize_trading_flows` over the ordered surplus holders:
skip `i` when its remaining surplus is `≤ 0`; compute the eligible deficit
holders (`np.where` returns them in ascending index order), skip when none;
otherwise run the inner loop over them sorted by descending remaining
deficit. -/
def tradeOuter (eff : ℚ) (allowed : ℕ → ℕ → ℚ) (N : ℕ) :
    List ℕ → TradeState → TradeState
  | [], s => s
  | i :: rest, s =>
    if s.sr i ≤ 0 then tradeOuter eff allowed N rest s
    else
      let available := (List.range N).filter
        (fun j => decide (0 < s.dr j ∧ allowed i j = 1))
      if available = [] then tradeOuter eff allowed N rest s
      else tradeOuter eff allowed N rest (tradeInner eff i (sortDesc s.dr available) s)

/-- The dictionary returned by `optimize_trading_flows`. -/
structure TradingResults where
  trading_matrix : ℕ → ℕ → ℚ
  community_exports : ℕ → ℚ
  community_imports : ℕ → ℚ
  grid_exports : ℕ → ℚ
  grid_imports : ℕ → ℚ
  total_community_traded : ℚ
  trading_efficiency_loss : ℚ

/-- `P2PTradingMechanism.optimize_trading_flows`: greedy single-step matcher.
Trading happens only when `community_price - grid_export_price > 0` and
`grid_import_price - community_price > 0`; the post-trading grid interactions
are `max(surplus - row sums, 0)` and `max(deficit - column sums, 0)`. -/
def P2PTradingMechanism.optimize_trading_flows (m : P2PTradingMechanism)
    (surplus deficit : ℕ → ℚ)
    (community_price grid_export_price grid_import_price : ℚ) : TradingResults :=
  let N := m.num_buildings
  let export_benefit := community_price - grid_export_price
  let import_benefit := grid_import_price - community_price
  let finalState :=
    if 0 < export_benefit ∧ 0 < import_benefit then
      tradeOuter m.trading_efficiency m.trading_allowed N
        (sortDesc surplus (List.range N)) ⟨fun _ _ => 0, surplus, deficit⟩
    else ⟨fun _ _ => 0, surplus, deficit⟩
  let tm := finalState.tm
  { trading_matrix := tm
    community_exports := fun i => ∑ j ∈ Finset.range N, tm i j
    community_imports := fun j => ∑ i ∈ Finset.range N, tm i j
    grid_exports := fun i => max (surplus i - ∑ j ∈ Finset.range N, tm i j) 0
    grid_imports := fun j => max (deficit j - ∑ i ∈ Finset.range N, tm i j) 0
    total_community_traded := ∑ i ∈ Finset.range N, ∑ j ∈ Finset.range N, tm i j
    trading_efficiency_loss :=
      (∑ i ∈ Finset.range N, ∑ j ∈ Finset.range N, tm i j) * (1 - m.trading_efficiency) }

/-- `P2PTradingMechanism._calculate_self_sufficiency`: `1 - Σ imports / Σ demand`
when the total demand is positive, else `1.0`.  The `generation` argument is
accepted and unused, as in the source. -/
def P2PTradingMechanism.calculate_self_sufficiency (N T : ℕ)
    (generation demand grid_imports : ℕ → ℕ → ℚ) : ℚ :=
  let total_demand := ∑ i ∈ Finset.range N, ∑ t ∈ Finset.range T, demand i t
  let total_grid_imports := ∑ i ∈ Finset.range N, ∑ t ∈ Finset.range T, grid_imports i t
  if 0 < total_demand then 1 - total_grid_imports / total_demand else 1

/-! ## Concrete instances used by witnesses and counterexamples -/

/-- Two-building mechanism with efficiency `0.95`, as in the spec's matcher
example. -/
def mech2 : P2PTradingMechanism := P2PTradingMechanism.init 2 (19/20) 1

/-- Surplus vector `[5, 0]`. -/
def surplus2 : ℕ → ℚ := fun n => if n = 0 then 5 else 0

/-- Deficit vector `[0, 3]`. -/
def deficit2 : ℕ → ℚ := fun n => if n = 1 then 3 else 0

/-- The matcher run of the spec's example: community price `0.15`, export
price `0.08`, import price `0.20`. -/
def exampleRun : TradingResults :=
  mech2.optimize_trading_flows surplus2 deficit2 (3/20) (2/25) (1/5)

/-- All-zero decision flows, used to instantiate solver responses. -/
def zeroFlows : DecisionFlows :=
  ⟨fun _ _ => 0, fun _ _ => 0, fun _ _ => 0, fun _ _ => 0,
   fun _ _ => 0, fun _ _ => 0, fun _ _ => 0⟩

/-- A well-shaped 2×2 all-ones adjacency input. -/
def adj2 : NDMatrix := ⟨2, 2, fun _ _ => 1⟩

/-- Optimizer configuration with one building, two timesteps, efficiencies
`0.95`. -/
def opt12 : ProsumerCommunityOptimizer := ⟨1, 2, 19/20, 19/20⟩

/-- Optimizer configuration with two buildings and one timestep. -/
def opt21 : ProsumerCommunityOptimizer := ⟨2, 1, 19/20, 19/20⟩

/-- Constant battery specification. -/
def bsOne : BatterySpecs := ⟨fun _ => 10, fun _ => 5, fun _ => 2, fun _ => 1⟩

/-- Constant load-flexibility bounds. -/
def lfOne : LoadFlexibility := ⟨fun _ _ => 0, fun _ _ => 4⟩

/-- A results dictionary with optimal status and all-ones flow matrices. -/
def resultsOpt : OptResults := ⟨"optimal", fun _ _ => 1, fun _ _ => 1, fun _ _ => 1⟩

/-- A results dictionary with infeasible status. -/
def resultsInf : OptResults := ⟨"infeasible", fun _ _ => 1, fun _ _ => 1, fun _ _ => 1⟩

/-! ## Theorems -/

/-- C10: after `__init__` and before any `set_trading_network` call, the
trading network is fully connected by default: `trading_allowed[i,j] = 1`
for every pair `i ≠ j` and `0` on the diagonal. -/
theorem claim_C10_default_network_fully_connected (n : ℕ) (eff dist : ℚ)
    (i j : ℕ) (h : i ≠ j) :
    (P2PTradingMechanism.init n eff dist).trading_allowed i j = 1 ∧
    (P2PTradingMechanism.init n eff dist).trading_allowed i i = 0 := by
  refine ⟨?_, ?_⟩ <;> simp [P2PTradingMechanism.init, h]

/-- C10 witness: the default 10-building network allows the pair (0, 1) and
forbids self-trading at 0. -/
theorem claim_C10_default_network_fully_connected_witness :
    (0 : ℕ) ≠ 1 ∧
    ((P2PTradingMechanism.init 10 (19/20) 1).trading_allowed 0 1 = 1 ∧
     (P2PTradingMechanism.init 10 (19/20) 1).trading_allowed 0 0 = 0) :=
  ⟨by decide, claim_C10_default_network_fully_connected 10 (19/20) 1 0 1 (by decide)⟩

/-- C8: `set_trading_network` errors exactly when the input shape differs
from `N × N`; on success the stored network has an all-zero diagonal
regardless of the input's diagonal and copies the input off the diagonal. -/
theorem claim_C8_set_trading_network_shape_and_diagonal
    (m : P2PTradingMechanism) (A : NDMatrix) :
    (¬(A.rows = m.num_buildings ∧ A.cols = m.num_buildings) →
      m.set_trading_network A =
        .error "Adjacency matrix must match number of buildings") ∧
    ((A.rows = m.num_buildings ∧ A.cols = m.num_buildings) →
      ∃ m', m.set_trading_network A = .ok m' ∧
        (∀ i, m'.trading_allowed i i = 0) ∧
        (∀ i j, i ≠ j → m'.trading_allowed i j = A.entry i j)) := by
  constructor
  · intro h
    simp [P2PTradingMechanism.set_trading_network, h]
  · intro h
    refine ⟨{ m with trading_allowed := fun i j =>
        if i = j then 0 else A.entry i j }, ?_, ?_, ?_⟩
    · simp [P2PTradingMechanism.set_trading_network, h]
    · intro i; simp
    · intro i j hij; simp [hij]

/-- C8 witness: a well-shaped 2×2 all-ones input is accepted by the
2-building mechanism and stored with a zeroed diagonal. -/
theorem claim_C8_set_trading_network_shape_and_diagonal_witness :
    (adj2.rows = mech2.num_buildings ∧ adj2.cols = mech2.num_buildings) ∧
    ∃ m', mech2.set_trading_network adj2 = .ok m' ∧
      (∀ i, m'.trading_allowed i i = 0) ∧
      (∀ i j, i ≠ j → m'.trading_allowed i j = adj2.entry i j) :=
  ⟨⟨rfl, rfl⟩,
    (claim_C8_set_trading_network_shape_and_diagonal mech2 adj2).2 ⟨rfl, rfl⟩⟩

/-- C5: the solve adapter is a total function of the solver response: an
infeasible or unbounded finish yields a status-only result with no flow
values, an exception yields the error-status result (distinct from
infeasible), and any other finish yields the status together with the
objective value and all decision-flow values. -/
theorem claim_C5_solve_adapter_totality (resp : SolverResponse) :
    (∀ st obj fl, resp = .finishes st obj fl →
      ((st = "infeasible" ∨ st = "unbounded") → solve resp = .statusOnly st) ∧
      (st ≠ "infeasible" → st ≠ "unbounded" → solve resp = .full st obj fl)) ∧
    (∀ msg, resp = .throws msg →
      solve resp = .solverError "error" msg ∧
      "error" ≠ "infeasible" ∧ "error" ≠ "unbounded") := by
  constructor
  · rintro st obj fl rfl
    constructor
    · rintro (rfl | rfl) <;> simp [solve]
    · intro h1 h2
      simp [solve, h1, h2]
  · rintro msg rfl
    exact ⟨rfl, by decide, by decide⟩

/-- C5 witness: an optimal finish returns the full results; an exception
returns the error-status result. -/
theorem claim_C5_solve_adapter_totality_witness :
    solve (.finishes "optimal" 0 zeroFlows) = .full "optimal" 0 zeroFlows ∧
    solve (.throws "timeout") = .solverError "error" "timeout" :=
  ⟨((claim_C5_solve_adapter_totality (.finishes "optimal" 0 zeroFlows)).1
      "optimal" 0 zeroFlows rfl).2 (by decide) (by decide),
   ((claim_C5_solve_adapter_totality (.throws "timeout")).2 "timeout" rfl).1⟩

/-- C3: whenever `community_price ≤ grid_export_price` or
`grid_import_price ≤ community_price`, the matcher returns an all-zero
trade matrix, for every surplus, deficit and adjacency. -/
theorem claim_C3_matcher_short_circuit (m : P2PTradingMechanism)
    (surplus deficit : ℕ → ℚ)
    (community_price grid_export_price grid_import_price : ℚ)
    (h : community_price ≤ grid_export_price ∨
         grid_import_price ≤ community_price) (i j : ℕ) :
    (m.optimize_trading_flows surplus deficit community_price
      grid_export_price grid_import_price).trading_matrix i j = 0 := by
  have hneg : ¬(grid_export_price < community_price ∧
      community_price < grid_import_price) := by
    rintro ⟨h1, h2⟩
    rcases h with h | h <;> linarith
  simp [P2PTradingMechanism.optimize_trading_flows, sub_pos, hneg]

/-- C3 witness: with community price `0.05` below the export price `0.08`,
no trade is recorded between buildings 0 and 1. -/
theorem claim_C3_matcher_short_circuit_witness :
    ((1:ℚ)/20 ≤ 2/25 ∨ (1:ℚ)/5 ≤ 1/20) ∧
    (mech2.optimize_trading_flows surplus2 deficit2 (1/20) (2/25)
      (1/5)).trading_matrix 0 1 = 0 :=
  ⟨Or.inl (by norm_num),
   claim_C3_matcher_short_circuit mech2 surplus2 deficit2 (1/20) (2/25) (1/5)
     (Or.inl (by norm_num)) 0 1⟩

/-- C9 counterexample: with a single building, a single timestep, demand
`-1` and grid import `1`, the aggregate demand is `-1`, the code returns
`1.0`, but `1 - (Σ imports / Σ demand) = 2`; the unqualified formula of the
claim therefore fails. -/
theorem claim_C9_counterexample :
    P2PTradingMechanism.calculate_self_sufficiency 1 1 (fun _ _ => 0)
      (fun _ _ => -1) (fun _ _ => 1) = 1 ∧
    1 - ((∑ i ∈ Finset.range 1, ∑ t ∈ Finset.range 1, (fun _ _ => (1:ℚ)) i t) /
         (∑ i ∈ Finset.range 1, ∑ t ∈ Finset.range 1, (fun _ _ => (-1:ℚ)) i t))
      = 2 ∧
    (1 : ℚ) ≠ 2 := by
  refine ⟨?_, by norm_num, by norm_num⟩
  norm_num [P2PTradingMechanism.calculate_self_sufficiency]

/-- C9 (amended): the self-sufficiency ratio equals
`1 - Σ grid_imports / Σ demand` whenever the aggregate demand is strictly
positive, and equals exactly `1.0` (with no division performed) whenever the
aggregate demand is zero or negative — in particular when it is zero. -/
theorem claim_C9_self_sufficiency (N T : ℕ)
    (generation demand grid_imports : ℕ → ℕ → ℚ) :
    (0 < ∑ i ∈ Finset.range N, ∑ t ∈ Finset.range T, demand i t →
      P2PTradingMechanism.calculate_self_sufficiency N T generation demand
          grid_imports =
        1 - (∑ i ∈ Finset.range N, ∑ t ∈ Finset.range T, grid_imports i t) /
            (∑ i ∈ Finset.range N, ∑ t ∈ Finset.range T, demand i t)) ∧
    (∑ i ∈ Finset.range N, ∑ t ∈ Finset.range T, demand i t ≤ 0 →
      P2PTradingMechanism.calculate_self_sufficiency N T generation demand
          grid_imports = 1) := by
  constructor
  · intro h
    simp [P2PTradingMechanism.calculate_self_sufficiency, h]
  · intro h
    simp [P2PTradingMechanism.calculate_self_sufficiency, not_lt.mpr h]

/-- C9 witness: positive aggregate demand `2` with imports `1` gives ratio
`1 - 1/2`; zero demand gives exactly `1`. -/
theorem claim_C9_self_sufficiency_witness :
    ((0:ℚ) < ∑ i ∈ Finset.range 1, ∑ t ∈ Finset.range 1, (fun _ _ => (2:ℚ)) i t ∧
      P2PTradingMechanism.calculate_self_sufficiency 1 1 (fun _ _ => 0)
          (fun _ _ => 2) (fun _ _ => 1) =
        1 - (∑ i ∈ Finset.range 1, ∑ t ∈ Finset.range 1, (fun _ _ => (1:ℚ)) i t) /
            (∑ i ∈ Finset.range 1, ∑ t ∈ Finset.range 1, (fun _ _ => (2:ℚ)) i t)) ∧
    ((∑ i ∈ Finset.range 1, ∑ t ∈ Finset.range 1, (fun _ _ => (0:ℚ)) i t ≤ 0) ∧
      P2PTradingMechanism.calculate_self_sufficiency 1 1 (fun _ _ => 0)
          (fun _ _ => 0) (fun _ _ => 1) = 1) :=
  ⟨⟨by norm_num,
    (claim_C9_self_sufficiency 1 1 (fun _ _ => 0) (fun _ _ => 2)
      (fun _ _ => 1)).1 (by norm_num)⟩,
   ⟨by norm_num,
    (claim_C9_self_sufficiency 1 1 (fun _ _ => 0) (fun _ _ => 0)
      (fun _ _ => 1)).2 (by norm_num)⟩⟩

/-- Evaluation of the spec's example matcher run (surplus `[5,0]`, deficit
`[0,3]`, default 2-building network, efficiency `0.95`, community price
`0.15`, export price `0.08`, import price `0.20`): the single trade is
`min(5,3)·0.95 = 2.85`, building 0's grid export is `5 - 2.85 = 2.15` and
building 1's grid import is `3 - 2.85 = 0.15`. -/
theorem exampleRun_eval :
    exampleRun.trading_matrix 0 1 = 57/20 ∧
    exampleRun.grid_exports 0 = 43/20 ∧
    exampleRun.grid_imports 1 = 3/20 := by
  norm_num [exampleRun, P2PTradingMechanism.optimize_trading_flows, mech2,
    P2PTradingMechanism.init, tradeOuter, tradeInner, sortDesc, insertDesc,
    upd, upd2, surplus2, deficit2, List.range_succ, List.filter, min_def,
    max_def, Finset.sum_range_succ]

/-- C2 counterexample: in the spec's example run the trade is `2.85`, but
building 0's grid export is not `2` and building 1's grid import is not `0`:
the code subtracts the post-efficiency delivered amounts (row/column sums of
the trade matrix) from surplus and deficit, not the internal residuals. -/
theorem claim_C2_counterexample :
    exampleRun.trading_matrix 0 1 = 57/20 ∧
    ¬(exampleRun.grid_exports 0 = 2 ∧ exampleRun.grid_imports 1 = 0) := by
  have h := exampleRun_eval
  refine ⟨h.1, ?_⟩
  rintro ⟨h1, h2⟩
  rw [h.2.1] at h1
  norm_num at h1

/-- C2 (amended): the example run returns `trade[0,1] = 3 × 0.95 = 2.85`;
building 0's grid export is `5 − 2.85 = 2.15` (surplus minus the
post-efficiency energy delivered) and building 1's grid import is
`3 − 2.85 = 0.15` (deficit minus the energy received). -/
theorem claim_C2_matcher_example :
    exampleRun.trading_matrix 0 1 = 3 * (19/20) ∧
    exampleRun.grid_exports 0 = 5 - 3 * (19/20) ∧
    exampleRun.grid_imports 1 = 3 - 3 * (19/20) := by
  have h := exampleRun_eval
  exact ⟨by rw [h.1]; norm_num, by rw [h.2.1]; norm_num, by rw [h.2.2]; norm_num⟩

/-- Membership in `insertDesc` is membership in the original list or the
inserted element. -/
theorem mem_insertDesc {key : ℕ → ℚ} {j a : ℕ} {l : List ℕ} :
    a ∈ insertDesc key j l ↔ a = j ∨ a ∈ l := by
  induction l with
  | nil => simp [insertDesc]
  | cons k rest ih =>
    simp only [insertDesc]
    split_ifs
    · simp only [List.mem_cons, ih]
      tauto
    · simp [List.mem_cons]

/-- `sortDesc` permutes: it has the same members as its input. -/
theorem mem_sortDesc {key : ℕ → ℚ} {a : ℕ} {l : List ℕ} :
    a ∈ sortDesc key l ↔ a ∈ l := by
  induction l with
  | nil => simp [sortDesc]
  | cons j rest ih => simp [sortDesc, mem_insertDesc, ih]

/-- The inner trading loop only writes matrix cells `(i, j)` with `j` drawn
from its candidate list; any cell that becomes nonzero is either freshly
allowed or was already nonzero. -/
theorem tradeInner_allowed (eff : ℚ) (allowed : ℕ → ℕ → ℚ) (i : ℕ)
    (l : List ℕ) (hl : ∀ j ∈ l, allowed i j = 1) (s : TradeState)
    (hs : ∀ a b, s.tm a b ≠ 0 → allowed a b = 1) :
    ∀ a b, (tradeInner eff i l s).tm a b ≠ 0 → allowed a b = 1 := by
  induction l generalizing s with
  | nil => simpa [tradeInner] using hs
  | cons j rest ih =>
    simp only [tradeInner]
    split_ifs with h1 h2
    · exact hs
    · refine ih (fun j' hj' => hl j' (List.mem_cons_of_mem _ hj')) _ ?_
      intro a b hab
      by_cases hij : a = i ∧ b = j
      · rw [hij.1, hij.2]
        exact hl j (List.mem_cons_self _ _)
      · refine hs a b ?_
        simpa [upd2, hij] using hab
    · exact ih (fun j' hj' => hl j' (List.mem_cons_of_mem _ hj')) s hs

/-- The outer trading loop preserves the property that every nonzero matrix
cell `(a, b)` has `allowed[a, b] = 1`, because each inner run is restricted
to candidates filtered by the adjacency test. -/
theorem tradeOuter_allowed (eff : ℚ) (allowed : ℕ → ℕ → ℚ) (N : ℕ)
    (l : List ℕ) (s : TradeState)
    (hs : ∀ a b, s.tm a b ≠ 0 → allowed a b = 1) :
    ∀ a b, (tradeOuter eff allowed N l s).tm a b ≠ 0 → allowed a b = 1 := by
  induction l generalizing s with
  | nil => simpa [tradeOuter] using hs
  | cons i rest ih =>
    simp only [tradeOuter]
    split_ifs with h1 h2
    · exact ih s hs
    · exact ih s hs
    · refine ih _ (tradeInner_allowed eff allowed i _ ?_ s hs)
      intro j hj
      have hj' := mem_sortDesc.mp hj
      have hmem := List.mem_filter.mp hj'
      exact (of_decide_eq_true hmem.2).2

/-- Any nonzero cell of the returned trading matrix is an allowed pair. -/
theorem optimize_trading_flows_allowed (m : P2PTradingMechanism)
    (surplus deficit : ℕ → ℚ)
    (community_price grid_export_price grid_import_price : ℚ) (i j : ℕ)
    (h : (m.optimize_trading_flows surplus deficit community_price
      grid_export_price grid_import_price).trading_matrix i j ≠ 0) :
    m.trading_allowed i j = 1 := by
  simp only [P2PTradingMechanism.optimize_trading_flows] at h
  by_cases hg : 0 < community_price - grid_export_price ∧
      0 < grid_import_price - community_price
  · rw [if_pos hg] at h
    exact tradeOuter_allowed _ _ _ _ _ (fun a b hab => absurd rfl hab) i j h
  · rw [if_neg hg] at h
    exact absurd rfl h

/-- C7: a positive trade `trade[i,j] > 0` returned by the matcher implies the
current adjacency matrix has `trading_allowed[i,j] = 1`, and — since the
stored adjacency always has a zero diagonal — that `i ≠ j`. -/
theorem claim_C7_positive_trade_only_if_allowed (m : P2PTradingMechanism)
    (surplus deficit : ℕ → ℚ)
    (community_price grid_export_price grid_import_price : ℚ)
    (hdiag : ∀ k, m.trading_allowed k k = 0) (i j : ℕ)
    (hpos : 0 < (m.optimize_trading_flows surplus deficit community_price
      grid_export_price grid_import_price).trading_matrix i j) :
    m.trading_allowed i j = 1 ∧ i ≠ j := by
  have hall : m.trading_allowed i j = 1 :=
    optimize_trading_flows_allowed m surplus deficit community_price
      grid_export_price grid_import_price i j (ne_of_gt hpos)
  refine ⟨hall, ?_⟩
  rintro rfl
  rw [hdiag i] at hall
  norm_num at hall

/-- C7 witness: the example run's positive trade `trade[0,1] = 2.85` implies
the default network allows `(0, 1)` and `0 ≠ 1`. -/
theorem claim_C7_positive_trade_only_if_allowed_witness :
    (∀ k, mech2.trading_allowed k k = 0) ∧
    (0:ℚ) < exampleRun.trading_matrix 0 1 ∧
    (mech2.trading_allowed 0 1 = 1 ∧ (0:ℕ) ≠ 1) := by
  have hd : ∀ k, mech2.trading_allowed k k = 0 := fun k => by
    simp [mech2, P2PTradingMechanism.init]
  have hp : (0:ℚ) < exampleRun.trading_matrix 0 1 := by
    rw [exampleRun_eval.1]
    norm_num
  have hp' : (0:ℚ) < (mech2.optimize_trading_flows surplus2 deficit2 (3/20)
      (2/25) (1/5)).trading_matrix 0 1 := hp
  exact ⟨hd, hp,
    claim_C7_positive_trade_only_if_allowed mech2 surplus2 deficit2 (3/20)
      (2/25) (1/5) hd 0 1 hp'⟩

/-- C4: with optimal status, `calculate_individual_costs` returns the
length-`N` vector whose `i`-th entry is
`Σ_t (import_price·grid_import − community_price·community_export −
export_price·(grid_export − community_export))`; with any other status it
returns a length-`N` vector all of whose entries are the NaN sentinel. -/
theorem claim_C4_individual_costs (o : ProsumerCommunityOptimizer)
    (results : OptResults)
    (import_prices export_prices community_prices : ℕ → ℚ) :
    (results.status = "optimal" →
      (o.calculate_individual_costs results import_prices export_prices
        community_prices).length = o.num_buildings ∧
      ∀ i < o.num_buildings,
        (o.calculate_individual_costs results import_prices export_prices
          community_prices)[i]? =
          some (some (∑ t ∈ Finset.range o.time_horizon,
            (import_prices t * results.grid_imports i t
              - community_prices t * results.community_trades i t
              - export_prices t *
                  (results.grid_exports i t - results.community_trades i t))))) ∧
    (results.status ≠ "optimal" →
      (o.calculate_individual_costs results import_prices export_prices
        community_prices).length = o.num_buildings ∧
      ∀ x ∈ o.calculate_individual_costs results import_prices export_prices
        community_prices, x = none) := by
  constructor
  · intro h
    constructor
    · simp [ProsumerCommunityOptimizer.calculate_individual_costs, h]
    · intro i hi
      simp only [ProsumerCommunityOptimizer.calculate_individual_costs,
        if_pos h, List.getElem?_map, List.getElem?_range hi, Option.map_some']
      rw [← Finset.sum_sub_distrib, ← Finset.sum_sub_distrib]
  · intro h
    constructor
    · simp [ProsumerCommunityOptimizer.calculate_individual_costs, h]
    · intro x hx
      simp only [ProsumerCommunityOptimizer.calculate_individual_costs,
        if_neg h] at hx
      exact List.eq_of_mem_replicate hx

/-- C4 witness: for a 2-building, 1-timestep optimizer, the optimal-status
dictionary yields a length-2 cost vector, and the infeasible-status
dictionary yields a length-2 vector every entry of which is the sentinel. -/
theorem claim_C4_individual_costs_witness :
    (resultsOpt.status = "optimal" ∧
      (opt21.calculate_individual_costs resultsOpt (fun _ => 1) (fun _ => 1)
        (fun _ => 1)).length = opt21.num_buildings) ∧
    (resultsInf.status ≠ "optimal" ∧
      ∀ x ∈ opt21.calculate_individual_costs resultsInf (fun _ => 1)
        (fun _ => 1) (fun _ => 1), x = none) :=
  ⟨⟨rfl, ((claim_C4_individual_costs opt21 resultsOpt (fun _ => 1)
      (fun _ => 1) (fun _ => 1)).1 rfl).1⟩,
   ⟨by decide, ((claim_C4_individual_costs opt21 resultsInf (fun _ => 1)
      (fun _ => 1) (fun _ => 1)).2 (by decide)).2⟩⟩

/-- C1: for every building `i < N` and timestep `t < T`, the problem built by
`setup_problem` contains the energy-balance equality constraint
`L[i,t] = pv[i,t] + G_down[i,t] + B_down[i,t] - G_up[i,t] - B_up[i,t]`
(an `eqC`, not an inequality), and for every `t` with `t+1 < T` the
battery-dynamics equality
`SOC[i,t+1] = SOC[i,t] + eta_ch·B_up[i,t] - B_down[i,t]/eta_dis`;
consequently every assignment satisfying all constraints satisfies both
equations. -/
theorem claim_C1_energy_balance_and_soc_equalities
    (o : ProsumerCommunityOptimizer) (demand pv_generation : ℕ → ℕ → ℚ)
    (import_prices export_prices community_prices : ℕ → ℚ)
    (battery_specs : BatterySpecs) (load_flexibility : LoadFlexibility)
    (i t : ℕ) (hi : i < o.num_buildings) (ht : t < o.time_horizon) :
    energyBalanceConstraint pv_generation i t ∈
      (o.setup_problem demand pv_generation import_prices export_prices
        community_prices battery_specs load_flexibility).constraints ∧
    (t + 1 < o.time_horizon →
      socEvolutionConstraint o.eta_ch o.eta_dis i t ∈
        (o.setup_problem demand pv_generation import_prices export_prices
          community_prices battery_specs load_flexibility).constraints) ∧
    (∀ σ : Var → ℚ,
      (∀ c ∈ (o.setup_problem demand pv_generation import_prices export_prices
        community_prices battery_specs load_flexibility).constraints,
        c.holds σ) →
      σ (.L i t) = pv_generation i t + σ (.Gdown i t) + σ (.Bdown i t)
          - σ (.Gup i t) - σ (.Bup i t) ∧
      (t + 1 < o.time_horizon →
        σ (.SOC i (t + 1)) = σ (.SOC i t) + o.eta_ch * σ (.Bup i t)
          - σ (.Bdown i t) / o.eta_dis)) := by
  have hbal : energyBalanceConstraint pv_generation i t ∈
      (o.setup_problem demand pv_generation import_prices export_prices
        community_prices battery_specs load_flexibility).constraints := by
    simp only [ProsumerCommunityOptimizer.setup_problem]
    apply List.mem_append_left
    apply List.mem_append_left
    apply List.mem_append_left
    rw [List.mem_flatMap]
    exact ⟨i, List.mem_range.mpr hi,
      List.mem_map.mpr ⟨t, List.mem_range.mpr ht, rfl⟩⟩
  have hsoc : t + 1 < o.time_horizon →
      socEvolutionConstraint o.eta_ch o.eta_dis i t ∈
        (o.setup_problem demand pv_generation import_prices export_prices
          community_prices battery_specs load_flexibility).constraints := by
    intro h1
    simp only [ProsumerCommunityOptimizer.setup_problem]
    apply List.mem_append_left
    apply List.mem_append_left
    apply List.mem_append_right
    rw [List.mem_flatMap]
    refine ⟨i, List.mem_range.mpr hi, ?_⟩
    apply List.mem_append_left
    apply List.mem_append_right
    exact List.mem_map.mpr ⟨t, List.mem_range.mpr (by omega), rfl⟩
  refine ⟨hbal, hsoc, ?_⟩
  intro σ hσ
  constructor
  · have h := hσ _ hbal
    simpa [energyBalanceConstraint, Constr.holds, CExpr.eval] using h
  · intro h1
    have h := hσ _ (hsoc h1)
    simpa [socEvolutionConstraint, Constr.holds, CExpr.eval] using h

/-- C1 witness: for the 1-building, 2-timestep optimizer with constant data,
the balance constraint at `(0,0)` and the SOC-evolution constraint for
`t = 0` are in the built constraint list. -/
theorem claim_C1_energy_balance_and_soc_equalities_witness :
    (0 : ℕ) < opt12.num_buildings ∧ (0 : ℕ) < opt12.time_horizon ∧
    energyBalanceConstraint (fun _ _ => 1) 0 0 ∈
      (opt12.setup_problem (fun _ _ => 1) (fun _ _ => 1) (fun _ => 1)
        (fun _ => 1) (fun _ => 1) bsOne lfOne).constraints ∧
    (0 + 1 < opt12.time_horizon →
      socEvolutionConstraint opt12.eta_ch opt12.eta_dis 0 0 ∈
        (opt12.setup_problem (fun _ _ => 1) (fun _ _ => 1) (fun _ => 1)
          (fun _ => 1) (fun _ => 1) bsOne lfOne).constraints) := by
  have h := claim_C1_energy_balance_and_soc_equalities opt12 (fun _ _ => 1)
    (fun _ _ => 1) (fun _ => 1) (fun _ => 1) (fun _ => 1) bsOne lfOne 0 0
    (by norm_num [opt12]) (by norm_num [opt12])
  exact ⟨by norm_num [opt12], by norm_num [opt12], h.1, h.2.1⟩

end DTBF
